import Mathlib

set_option maxRecDepth 8192

/-!
Verification of the server core in src/backend/src/server.c.

The embedding models the request/response pipeline over byte lists
(`List Char`, one element per byte).  External collaborators that the core
only calls into (file_load, mime_type_get, asctime, the socket layer) are
parameters: an `Env` carries the file system, the MIME table and the
current date string; the OS receive is a function from the byte cap passed
by the caller to the recv() result and resulting buffer contents.  C
strings are byte lists read up to their first NUL (`cstr`).
-/

/-- The NUL character, terminator of C strings. -/
def NUL : Char := Char.ofNat 0

/-- Contents of a C string stored in a buffer: the bytes up to the first NUL. -/
def cstr (l : List Char) : List Char := l.takeWhile (fun c => c ≠ NUL)

/-- Whitespace of C isspace in the default locale (space, tab, newline,
vertical tab, form feed, carriage return): what a scanf whitespace directive
and the start of a %s conversion skip, and what ends a %s token. -/
def isSpaceC (c : Char) : Bool :=
  c == ' ' || c == '\t' || c == '\n' || c == Char.ofNat 11 || c == Char.ofNat 12 || c == '\r'

/-- One %s conversion of sscanf: skip whitespace, then take the longest run
of non-whitespace characters.  Returns the token (empty when the input ran
out) and the rest of the input. -/
def scanToken (l : List Char) : List Char × List Char :=
  let l1 := l.dropWhile isSpaceC
  (l1.takeWhile (fun c => !isSpaceC c), l1.dropWhile (fun c => !isSpaceC c))

/-- The two tokens read by sscanf(request, "%s %s", type, path) at
server.c:180.  The request buffer is read as a C string; a token is empty
when the corresponding conversion failed (input exhausted). -/
def firstTwoTokens (buf : List Char) : List Char × List Char :=
  ((scanToken (cstr buf)).1, (scanToken (scanToken (cstr buf)).2).1)

/-- Bytes that a %s conversion stores into its destination array when it
matches: the token followed by a terminating NUL.  The formats at
server.c:180 ("%s %s" into char type[10] and char path[107]) and at
server.c:138 ("/profile/%s" into char prof[100]) carry no field width, so
this store is not bounded by the destination's size. -/
def scanWrite (tok : List Char) : List Char := if tok = [] then [] else tok ++ [NUL]

/-- Result of sscanf(path, "/profile/%s", prof) == 1 at server.c:138: the
nine literal characters must match the start of the path, then %s skips
whitespace and must find at least one non-whitespace character. -/
def profileMatch (path : List Char) : Bool :=
  let s := cstr path
  (("/profile/".data).isPrefixOf s) && !(((s.drop 9).dropWhile isSpaceC).isEmpty)

/-- Size of the response buffer of send_response (server.c:53). -/
def max_response_size : Nat := 262144

/-- Bytes snprintf renders before the blank line for the format at
server.c:60-62, namely
"%s\nDate: %sConnection: close\nContent-Length: %d\nContent-Type: %s\n\n%s":
every %s reads its argument up to the argument's first NUL, and %d renders
the int argument in decimal. -/
def headerBytes (header date content_type : List Char) (content_length : Int) : List Char :=
  cstr header ++ "\nDate: ".data ++ cstr date ++ "Connection: close\nContent-Length: ".data ++
    (Int.repr content_length).data ++ "\nContent-Type: ".data ++ cstr content_type

/-- Bytes send_response (server.c:52-74) hands to send(): the rendered
format, truncated by snprintf to max_response_size - 1 characters.  The %s
conversion of the body stops at the body's first NUL byte, so no NUL is ever
written and strlen(response) is the length of the truncated rendering. -/
def send_response_bytes (header date content_type body : List Char)
    (content_length : Int) : List Char :=
  (headerBytes header date content_type content_length ++ '\n' :: '\n' :: cstr body).take
    (max_response_size - 1)

/-- Modelled from the spec: the cache collaborator (cache.h is not part of
src/) is "a bounded key→value store keyed by file path, with creation
parameters for capacity and an eviction-policy flag" (spec sections 1 and 3).
Its internals are opaque to the server core. -/
structure Cache where
  capacity : Int
  evictionFlag : Int
  store : List (List Char × List Char)
deriving DecidableEq

/-- Modelled from the spec: cache_create builds a cache from its creation
parameters, a capacity and an eviction-policy flag (spec section 4.4). -/
def cache_create (capacity flag : Int) : Cache :=
  { capacity := capacity, evictionFlag := flag, store := [] }

/-- The cache constructed once by main at server.c:202. -/
def mainCache : Cache := cache_create 10 0

/-- External collaborators of the server core: fs is file_load (file.h), a
partial map from file path to the loaded file's bytes - it reports a missing
file by returning no payload, and the payload's length is the file_data size
field; mime is mime_type_get (mime.h); date is the asctime rendering of the
wall-clock time that send_response reads. -/
structure Env where
  fs : List Char → Option (List Char)
  mime : List Char → List Char
  date : List Char

/-- Observable outcome of one connection: no bytes sent (failed recv), a
fatal process exit with the given code, or a response whose bytes were
handed to send(). -/
inductive Outcome where
  | noResponse : Outcome
  | fatalExit (code : Nat) : Outcome
  | sent (bytes : List Char) : Outcome
deriving DecidableEq

/-- The SERVER_FILES macro (server.c:40). -/
def SERVER_FILES : List Char := "./serverfiles".data

/-- The SERVER_ROOT macro (server.c:41). -/
def SERVER_ROOT : List Char := "./serverroot".data

/-- Path built by resp_404 at server.c:85: snprintf "%s/404.html" into a
4096-byte buffer, hence truncation to 4095 characters. -/
def path404 : List Char := (SERVER_FILES ++ "/404.html".data).take 4095

/-- Path built by resp_file at server.c:110: snprintf "%s%s" of SERVER_ROOT
and the request path into a 4096-byte buffer. -/
def resolvePath (request_path : List Char) : List Char :=
  (SERVER_ROOT ++ cstr request_path).take 4095

/-- resp_404 (server.c:79-99): load 404.html from SERVER_FILES; exit(3) when
file_load reports it missing, otherwise send a 404 response carrying the
file's bytes and its size as Content-Length. -/
def resp_404 (env : Env) : Outcome :=
  match env.fs path404 with
  | none => Outcome.fatalExit 3
  | some filedata =>
      Outcome.sent (send_response_bytes ("HTTP/1.1 404 NOT FOUND".data) env.date
        (env.mime path404) filedata (Int.ofNat filedata.length))

/-- resp_file (server.c:104-124): resolve the request path under
SERVER_ROOT, exit(3) when file_load reports the file missing, otherwise send
a 200 response.  The cache argument is received but never consulted or
modified. -/
def resp_file (env : Env) (cache : Cache) (request_path : List Char) : Outcome × Cache :=
  match env.fs (resolvePath request_path) with
  | none => (Outcome.fatalExit 3, cache)
  | some filedata =>
      (Outcome.sent (send_response_bytes ("HTTP/1.1 200 OK".data) env.date
        (env.mime (resolvePath request_path)) filedata (Int.ofNat filedata.length)), cache)

/-- handle_get_request (server.c:134-145): when the path matches
"/profile/%s", serve the fixed file /profile.html, otherwise the fixed file
/index.html.  The matched token (stored into char prof[100]) is never used. -/
def handle_get_request (env : Env) (cache : Cache) (path _request : List Char) :
    Outcome × Cache :=
  if profileMatch path then resp_file env cache ("/profile.html".data)
  else resp_file env cache ("/index.html".data)

/-- handle_post_request (server.c:155-158): log the request and respond 404. -/
def handle_post_request (env : Env) (cache : Cache) (_path _request : List Char) :
    Outcome × Cache :=
  (resp_404 env, cache)

/-- Contents of the char type[10] buffer after server.c:180, read as a C
string: the first token when the first %s matched; otherwise the buffer
keeps its previous, uninitialized contents, modelled by the typeInit
parameter. -/
def effMethod (buf typeInit : List Char) : List Char :=
  if (firstTwoTokens buf).1 = [] then cstr typeInit else (firstTwoTokens buf).1

/-- Contents of the char path[107] buffer after server.c:180 (same
convention as effMethod). -/
def effPath (buf pathInit : List Char) : List Char :=
  if (firstTwoTokens buf).2 = [] then cstr pathInit else (firstTwoTokens buf).2

/-- Dispatch at server.c:182-191: strcmp of the method buffer against "GET",
then against "POST"; anything else gets resp_404. -/
def dispatchRequest (env : Env) (cache : Cache) (buf typeInit pathInit : List Char) :
    Outcome × Cache :=
  if effMethod buf typeInit = "GET".data then
    handle_get_request env cache (effPath buf pathInit) (cstr buf)
  else if effMethod buf typeInit = "POST".data then
    handle_post_request env cache (effPath buf pathInit) (cstr buf)
  else (resp_404 env, cache)

/-- The request_buffer_size constant (server.c:164). -/
def request_buffer_size : Nat := 65536

/-- handle_http_request (server.c:163-192): one blocking recv of at most
request_buffer_size - 1 bytes; a strictly negative recv result is logged and
the function returns with no bytes sent; any other result falls through to
token extraction and dispatch on the request buffer's contents. -/
def handle_http_request (env : Env) (cache : Cache) (recv : Nat → Int × List Char)
    (typeInit pathInit : List Char) : Outcome × Cache :=
  let r := recv (request_buffer_size - 1)
  if r.1 < 0 then (Outcome.noResponse, cache)
  else dispatchRequest env cache r.2 typeInit pathInit

/-- Result of one iteration of the accept loop (server.c:218-241): the loop
goes on to the next accept, having handled a connection or not, or the
process exits. -/
inductive IterStep where
  | next (handled : Option Outcome) : IterStep
  | exitProcess (code : Nat) : IterStep
deriving DecidableEq

/-- One iteration of the accept loop (server.c:218-241): an accept() result
of -1 is logged and the loop continues without handling a connection;
otherwise the connection is handled by handle_http_request and closed, and
an exit(3) raised inside the handlers ends the process. -/
def loopIteration (env : Env) (cache : Cache) (acceptResult : Int)
    (recv : Nat → Int × List Char) (typeInit pathInit : List Char) : IterStep :=
  if acceptResult = -1 then IterStep.next none
  else
    match handle_http_request env cache recv typeInit pathInit with
    | (Outcome.fatalExit c, _) => IterStep.exitProcess c
    | (o, _) => IterStep.next (some o)

/-- True when the byte list contains two consecutive newline characters. -/
def hasBlank : List Char → Bool
  | [] => false
  | c :: rest => if c = '\n' ∧ rest.head? = some '\n' then true else hasBlank rest

/-- Split a byte stream at its first blank line (the first "\n\n"): the
bytes before it and the bytes after it. -/
def splitAtBlank : List Char → Option (List Char × List Char)
  | [] => none
  | c :: rest =>
    if c = '\n' ∧ rest.head? = some '\n' then some ([], rest.tail)
    else (splitAtBlank rest).map (fun p => (c :: p.1, p.2))

/-- Concrete environment for witnesses: a file system holding the three
resource files, a constant MIME table, an asctime-shaped date. -/
def envW : Env where
  fs := fun p =>
    if p = ("./serverroot/profile.html".data) then some ("PROFILE".data)
    else if p = ("./serverroot/index.html".data) then some ("INDEX".data)
    else if p = ("./serverfiles/404.html".data) then some ("NOTFOUND".data)
    else none
  mime := fun _ => "text/html".data
  date := "Mon Jan  1 00:00:00 2024\n".data

/-- Concrete environment for witnesses whose file system is empty. -/
def envNone : Env where
  fs := fun _ => none
  mime := fun _ => "text/html".data
  date := "Mon Jan  1 00:00:00 2024\n".data

/-! Helper lemmas. -/

lemma cstr_eq_self {l : List Char} (h : ∀ c ∈ l, c ≠ NUL) : cstr l = l :=
  List.takeWhile_eq_self_iff.mpr (by intro a ha; simpa using h a ha)

lemma mem_cstr_ne_NUL {l : List Char} {c : Char} (h : c ∈ cstr l) : c ≠ NUL := by
  have := List.mem_takeWhile_imp h
  simpa using this

lemma cstr_sublist (l : List Char) : (cstr l).Sublist l := List.takeWhile_sublist _

lemma dropWhile_eq_self_of_none {p : Char → Bool} {l : List Char}
    (h : ∀ c ∈ l, p c = false) : l.dropWhile p = l := by
  cases l with
  | nil => rfl
  | cons a t => simp [List.dropWhile_cons, h a (by simp)]

lemma scanToken_fst_spec {l : List Char} {c : Char} (h : c ∈ (scanToken l).1) :
    c ∈ l ∧ isSpaceC c = false := by
  unfold scanToken at h
  simp only at h
  constructor
  · exact (List.dropWhile_sublist _).mem ((List.takeWhile_sublist _).mem h)
  · have := List.mem_takeWhile_imp h
    simpa using this

lemma scanToken_snd_sublist (l : List Char) : (scanToken l).2.Sublist l := by
  unfold scanToken
  simp only
  exact (List.dropWhile_sublist _).trans (List.dropWhile_sublist _)

lemma firstTwoTokens_fst_spec {buf : List Char} {c : Char}
    (h : c ∈ (firstTwoTokens buf).1) : isSpaceC c = false ∧ c ≠ NUL := by
  unfold firstTwoTokens at h
  simp only at h
  obtain ⟨hmem, hsp⟩ := scanToken_fst_spec h
  exact ⟨hsp, mem_cstr_ne_NUL hmem⟩

lemma firstTwoTokens_snd_spec {buf : List Char} {c : Char}
    (h : c ∈ (firstTwoTokens buf).2) : isSpaceC c = false ∧ c ≠ NUL := by
  unfold firstTwoTokens at h
  simp only at h
  obtain ⟨hmem, hsp⟩ := scanToken_fst_spec h
  have hmem2 : c ∈ cstr buf := (scanToken_snd_sublist (cstr buf)).mem hmem
  exact ⟨hsp, mem_cstr_ne_NUL hmem2⟩

lemma profileMatch_eq_true_iff {p : List Char}
    (hns : ∀ c ∈ p, isSpaceC c = false) (hnn : ∀ c ∈ p, c ≠ NUL) :
    profileMatch p = true ↔ ((("/profile/".data).isPrefixOf p) = true ∧ p.drop 9 ≠ []) := by
  unfold profileMatch
  simp only
  rw [cstr_eq_self hnn,
    dropWhile_eq_self_of_none (fun c hc => hns c (List.drop_subset 9 p hc))]
  simp [List.isEmpty_iff]

lemma hasBlank_cons_eq (c : Char) (t : List Char) :
    hasBlank (c :: t) = if c = '\n' ∧ t.head? = some '\n' then true else hasBlank t := rfl

lemma splitAtBlank_cons_eq (c : Char) (t : List Char) :
    splitAtBlank (c :: t) =
      if c = '\n' ∧ t.head? = some '\n' then some ([], t.tail)
      else (splitAtBlank t).map (fun p => (c :: p.1, p.2)) := rfl

lemma splitAtBlank_append (h b : List Char) (hok : hasBlank (h ++ ['\n']) = false) :
    splitAtBlank (h ++ '\n' :: '\n' :: b) = some (h, b) := by
  induction h with
  | nil =>
    rw [List.nil_append, splitAtBlank_cons_eq, if_pos ⟨rfl, rfl⟩]
    rfl
  | cons c t ih =>
    have hcond : ¬(c = '\n' ∧ (t ++ ['\n']).head? = some '\n') := by
      intro hc
      rw [List.cons_append, hasBlank_cons_eq, if_pos hc] at hok
      exact Bool.noConfusion hok
    have htail : hasBlank (t ++ ['\n']) = false := by
      rw [List.cons_append, hasBlank_cons_eq, if_neg hcond] at hok
      exact hok
    have hcond2 : ¬(c = '\n' ∧ (t ++ '\n' :: '\n' :: b).head? = some '\n') := by
      rintro ⟨hc, hh⟩
      apply hcond
      refine ⟨hc, ?_⟩
      cases t with
      | nil => rfl
      | cons x xs => simpa using hh
    rw [List.cons_append, splitAtBlank_cons_eq, if_neg hcond2, ih htail]
    rfl

lemma digitChar_mem (k : Nat) : Nat.digitChar k ∈ "0123456789abcdef*".data := by
  rcases Nat.lt_or_ge k 16 with h | h
  · interval_cases k <;> decide
  · have h0 : Nat.digitChar k = '*' := by
      unfold Nat.digitChar
      repeat rw [if_neg (by omega)]
    rw [h0]
    decide

lemma toDigitsCore_mem (b : Nat) : ∀ (fuel n : Nat) (ds : List Char),
    (∀ c ∈ ds, c ∈ "0123456789abcdef*".data) →
    ∀ c ∈ Nat.toDigitsCore b fuel n ds, c ∈ "0123456789abcdef*".data := by
  intro fuel
  induction fuel with
  | zero =>
    intro n ds hds c hc
    exact hds c hc
  | succ f ih =>
    intro n ds hds c hc
    simp only [Nat.toDigitsCore] at hc
    by_cases h0 : n / b = 0
    · rw [if_pos h0] at hc
      rcases List.mem_cons.mp hc with rfl | hc2
      · exact digitChar_mem _
      · exact hds c hc2
    · rw [if_neg h0] at hc
      refine ih (n / b) (Nat.digitChar (n % b) :: ds) ?_ c hc
      intro x hx
      rcases List.mem_cons.mp hx with rfl | hx2
      · exact digitChar_mem _
      · exact hds x hx2

lemma natRepr_mem (n : Nat) : ∀ c ∈ (Nat.repr n).data, c ∈ "0123456789abcdef*".data := by
  intro c hc
  have hdata : (Nat.repr n).data = Nat.toDigitsCore 10 (n + 1) n [] := rfl
  rw [hdata] at hc
  exact toDigitsCore_mem 10 (n + 1) n [] (by intro x hx; cases hx) c hc

lemma intRepr_mem (i : Int) : ∀ c ∈ (Int.repr i).data, c ∈ "-0123456789abcdef*".data := by
  have h3 : ("-0123456789abcdef*".data) = '-' :: "0123456789abcdef*".data := rfl
  cases i with
  | ofNat m =>
    intro c hc
    have h2 : Int.repr (Int.ofNat m) = Nat.repr m := rfl
    rw [h2] at hc
    rw [h3]
    exact List.mem_cons_of_mem '-' (natRepr_mem m c hc)
  | negSucc m =>
    intro c hc
    have h2 : Int.repr (Int.negSucc m) = "-" ++ Nat.repr (m + 1) := rfl
    rw [h2, String.data_append] at hc
    rcases List.mem_append.mp hc with h | h
    · have h4 : ("-".data) = ['-'] := rfl
      rw [h4] at h
      have h5 : c = '-' := List.mem_singleton.mp h
      rw [h5, h3]
      exact List.mem_cons_self _ _
    · rw [h3]
      exact List.mem_cons_of_mem '-' (natRepr_mem (m + 1) c h)

lemma intRepr_clean (i : Int) (c : Char) (hc : c ∈ (Int.repr i).data) :
    c ≠ '\n' ∧ c ≠ '\r' ∧ c ≠ NUL :=
  (by decide : ∀ x ∈ "-0123456789abcdef*".data, x ≠ '\n' ∧ x ≠ '\r' ∧ x ≠ NUL)
    c (intRepr_mem i c hc)

lemma resolvePath_profile : resolvePath ("/profile.html".data) = "./serverroot/profile.html".data := by
  decide

lemma resolvePath_index : resolvePath ("/index.html".data) = "./serverroot/index.html".data := by
  decide

lemma path404_eq : path404 = "./serverfiles/404.html".data := by decide

lemma resp_file_snd (env : Env) (cache : Cache) (rp : List Char) :
    (resp_file env cache rp).2 = cache := by
  unfold resp_file
  cases env.fs (resolvePath rp) <;> rfl

lemma resp_file_fst_cache (env : Env) (c1 c2 : Cache) (rp : List Char) :
    (resp_file env c1 rp).1 = (resp_file env c2 rp).1 := by
  unfold resp_file
  cases env.fs (resolvePath rp) <;> rfl

lemma resp_file_fst_ne_noResponse (env : Env) (cache : Cache) (rp : List Char) :
    (resp_file env cache rp).1 ≠ Outcome.noResponse := by
  unfold resp_file
  cases env.fs (resolvePath rp) <;> simp

lemma resp_404_ne_noResponse (env : Env) : resp_404 env ≠ Outcome.noResponse := by
  unfold resp_404
  cases env.fs path404 <;> simp

lemma dispatch_snd (env : Env) (cache : Cache) (buf ti pi : List Char) :
    (dispatchRequest env cache buf ti pi).2 = cache := by
  unfold dispatchRequest handle_get_request handle_post_request
  split
  · split <;> exact resp_file_snd env cache _
  · split
    · rfl
    · rfl

lemma dispatch_fst_cache (env : Env) (c1 c2 : Cache) (buf ti pi : List Char) :
    (dispatchRequest env c1 buf ti pi).1 = (dispatchRequest env c2 buf ti pi).1 := by
  unfold dispatchRequest handle_get_request handle_post_request
  split
  · split <;> exact resp_file_fst_cache env c1 c2 _
  · split <;> rfl

lemma dispatch_fst_ne_noResponse (env : Env) (cache : Cache) (buf ti pi : List Char) :
    (dispatchRequest env cache buf ti pi).1 ≠ Outcome.noResponse := by
  unfold dispatchRequest handle_get_request handle_post_request
  split
  · split <;> exact resp_file_fst_ne_noResponse env cache _
  · split
    · exact resp_404_ne_noResponse env
    · exact resp_404_ne_noResponse env

/-! Claim theorems. -/

/-- Claim C3: for every call to resp_404, when the file-load collaborator
reports 404.html missing (returns no payload), the process terminates
immediately with a fatal exit (code 3); independently, for every call to
resp_file, when the collaborator reports that call's resolved target
missing, the process likewise terminates with a fatal exit (code 3) -
whether or not the other file exists - and a fatal exit is no emitted
response. -/
theorem missing_file_is_fatal (env : Env) (cache : Cache) (request_path : List Char) :
    (env.fs path404 = none → resp_404 env = Outcome.fatalExit 3) ∧
    (env.fs (resolvePath request_path) = none →
      (resp_file env cache request_path).1 = Outcome.fatalExit 3) ∧
    (∀ b, Outcome.fatalExit 3 ≠ Outcome.sent b) := by
  refine ⟨?_, ?_, ?_⟩
  · intro h404
    unfold resp_404
    rw [h404]
  · intro hfile
    unfold resp_file
    rw [hfile]
  · intro b
    simp

/-- Witness for C3: on the concrete file system that does hold 404.html (and
profile.html, index.html), a resp_file call whose own target is missing is
fatal; resp_404 is fatal on the concrete empty file system. -/
theorem missing_file_is_fatal_witness :
    (resp_file envW mainCache ("/missing.html".data)).1 = Outcome.fatalExit 3 ∧
    resp_404 envNone = Outcome.fatalExit 3 ∧
    (∀ b, Outcome.fatalExit 3 ≠ Outcome.sent b) := by
  refine ⟨?_, ?_, ?_⟩
  · exact (missing_file_is_fatal envW mainCache ("/missing.html".data)).2.1 (by decide)
  · exact (missing_file_is_fatal envNone mainCache ("/missing.html".data)).1 rfl
  · exact (missing_file_is_fatal envNone mainCache ("/missing.html".data)).2.2

/-- Claim C6: handle_http_request reads at most request_buffer_size - 1 =
65535 bytes in its single receive (the outcome depends on the OS receive
only through its answer at that cap), and when the receive fails (negative
result) it returns with no bytes sent: the outcome is noResponse, which is
neither a sent response nor an exit raised by a handler. -/
theorem recv_cap_and_failure (env : Env) (cache : Cache)
    (recv recv2 : Nat → Int × List Char) (ti pi : List Char) :
    request_buffer_size - 1 = 65535 ∧
    (recv (request_buffer_size - 1) = recv2 (request_buffer_size - 1) →
      handle_http_request env cache recv ti pi = handle_http_request env cache recv2 ti pi) ∧
    ((recv (request_buffer_size - 1)).1 < 0 →
      handle_http_request env cache recv ti pi = (Outcome.noResponse, cache)) ∧
    (∀ b c, Outcome.noResponse ≠ Outcome.sent b ∧ Outcome.noResponse ≠ Outcome.fatalExit c) := by
  refine ⟨rfl, ?_, ?_, ?_⟩
  · intro h
    simp only [handle_http_request]
    rw [h]
  · intro h
    simp only [handle_http_request]
    rw [if_pos h]
  · intro b c
    exact ⟨by simp, by simp⟩

/-- Witness for C6: a concrete receive that fails with -1 produces no
response, and the outcome only depends on the receive's answer at 65535. -/
theorem recv_cap_and_failure_witness :
    handle_http_request envW mainCache (fun _ => (-1, [])) [] [] =
      (Outcome.noResponse, mainCache) ∧
    handle_http_request envW mainCache (fun _ => (-1, [])) [] [] =
      handle_http_request envW mainCache (fun _ => ((-1 : Int), ([] : List Char))) [] [] := by
  constructor
  · exact (recv_cap_and_failure envW mainCache (fun _ => (-1, []))
      (fun _ => (-1, [])) [] []).2.2.1 (by decide)
  · exact (recv_cap_and_failure envW mainCache (fun _ => (-1, []))
      (fun _ => (-1, [])) [] []).2.1 rfl

/-- Claim C8: the cache is created once at process start with capacity 10
and no special eviction flag, and request handling neither mutates it (the
cache after handling a request equals the cache before) nor reads it (the
outcome is independent of the cache passed in). -/
theorem cache_created_once_and_bypassed :
    mainCache = cache_create 10 0 ∧ mainCache.capacity = 10 ∧ mainCache.evictionFlag = 0 ∧
    (∀ env cache recv ti pi, (handle_http_request env cache recv ti pi).2 = cache) ∧
    (∀ env c1 c2 recv ti pi,
      (handle_http_request env c1 recv ti pi).1 = (handle_http_request env c2 recv ti pi).1) := by
  refine ⟨rfl, rfl, rfl, ?_, ?_⟩
  · intro env cache recv ti pi
    simp only [handle_http_request]
    split
    · rfl
    · exact dispatch_snd env cache _ ti pi
  · intro env c1 c2 recv ti pi
    simp only [handle_http_request]
    split
    · rfl
    · exact dispatch_fst_cache env c1 c2 _ ti pi

/-- Claim C9: in the connection loop an accept that returns failure (-1)
never terminates the server: that iteration continues to the next accept,
handles no connection, and is no process exit. -/
theorem failed_accept_continues (env : Env) (cache : Cache)
    (recv : Nat → Int × List Char) (ti pi : List Char) :
    loopIteration env cache (-1) recv ti pi = IterStep.next none ∧
    (∀ c, IterStep.next none ≠ IterStep.exitProcess c) ∧
    (∀ o, IterStep.next none ≠ IterStep.next (some o)) := by
  refine ⟨?_, ?_, ?_⟩
  · unfold loopIteration
    rw [if_pos rfl]
  · intro c
    simp
  · intro o
    simp

/-- Claim C10: a receive that returns exactly zero bytes is not treated as a
failure: handle_http_request proceeds to token extraction and dispatch on
the request buffer's contents (whatever bytes the buffer holds) and some
response or exit results, never the silent return; only a strictly negative
receive result takes the log-and-return path. -/
theorem zero_byte_recv_dispatches (env : Env) (cache : Cache)
    (recv : Nat → Int × List Char) (ti pi : List Char) :
    ((recv (request_buffer_size - 1)).1 = 0 →
      handle_http_request env cache recv ti pi =
        dispatchRequest env cache (recv (request_buffer_size - 1)).2 ti pi ∧
      (handle_http_request env cache recv ti pi).1 ≠ Outcome.noResponse) ∧
    ((recv (request_buffer_size - 1)).1 < 0 →
      handle_http_request env cache recv ti pi = (Outcome.noResponse, cache)) := by
  constructor
  · intro h
    have hnot : ¬((recv (request_buffer_size - 1)).1 < 0) := by
      rw [h]
      exact lt_irrefl 0
    constructor
    · simp only [handle_http_request]
      rw [if_neg hnot]
    · simp only [handle_http_request]
      rw [if_neg hnot]
      exact dispatch_fst_ne_noResponse env cache _ ti pi
  · intro h
    simp only [handle_http_request]
    rw [if_pos h]

/-- Witness for C10: a concrete zero-byte receive dispatches on the buffer
contents, and a concrete negative receive returns silently. -/
theorem zero_byte_recv_dispatches_witness :
    (handle_http_request envW mainCache (fun _ => (0, "GET /x".data)) [] [] =
      dispatchRequest envW mainCache ("GET /x".data) [] [] ∧
     (handle_http_request envW mainCache (fun _ => (0, "GET /x".data)) [] []).1 ≠
      Outcome.noResponse) ∧
    handle_http_request envW mainCache (fun _ => (-2, [])) [] [] =
      (Outcome.noResponse, mainCache) := by
  constructor
  · exact (zero_byte_recv_dispatches envW mainCache (fun _ => (0, "GET /x".data)) [] []).1 rfl
  · exact (zero_byte_recv_dispatches envW mainCache (fun _ => (-2, [])) [] []).2 (by decide)

/-- Claim C2: dispatch is decided solely by the exact method token: a method
equal to GET goes to the GET handler, a method equal to POST yields the 404
response regardless of path or body, and any other method token yields the
404 response. -/
theorem dispatch_by_method (env : Env) (cache : Cache) (buf ti pi d404 : List Char)
    (hfs : env.fs path404 = some d404) :
    (effMethod buf ti = "GET".data →
      dispatchRequest env cache buf ti pi =
        handle_get_request env cache (effPath buf pi) (cstr buf)) ∧
    (effMethod buf ti = "POST".data →
      dispatchRequest env cache buf ti pi =
        (Outcome.sent (send_response_bytes ("HTTP/1.1 404 NOT FOUND".data) env.date
          (env.mime path404) d404 (Int.ofNat d404.length)), cache)) ∧
    (effMethod buf ti ≠ "GET".data → effMethod buf ti ≠ "POST".data →
      dispatchRequest env cache buf ti pi =
        (Outcome.sent (send_response_bytes ("HTTP/1.1 404 NOT FOUND".data) env.date
          (env.mime path404) d404 (Int.ofNat d404.length)), cache)) := by
  refine ⟨?_, ?_, ?_⟩
  · intro h
    unfold dispatchRequest
    rw [if_pos h]
  · intro h
    have hne : effMethod buf ti ≠ "GET".data := by
      rw [h]
      decide
    unfold dispatchRequest handle_post_request resp_404
    rw [if_neg hne, if_pos h, hfs]
  · intro h1 h2
    unfold dispatchRequest resp_404
    rw [if_neg h1, if_neg h2, hfs]

/-- Witness for C2: a concrete POST request and a concrete unknown-method
request both get the 404 page; a concrete GET request goes to the GET
handler. -/
theorem dispatch_by_method_witness :
    dispatchRequest envW mainCache ("POST /save HTTP/1.1".data) [] [] =
      (Outcome.sent (send_response_bytes ("HTTP/1.1 404 NOT FOUND".data) envW.date
        (envW.mime path404) ("NOTFOUND".data) (Int.ofNat ("NOTFOUND".data).length)),
       mainCache) ∧
    dispatchRequest envW mainCache ("DELETE /x HTTP/1.1".data) [] [] =
      (Outcome.sent (send_response_bytes ("HTTP/1.1 404 NOT FOUND".data) envW.date
        (envW.mime path404) ("NOTFOUND".data) (Int.ofNat ("NOTFOUND".data).length)),
       mainCache) ∧
    dispatchRequest envW mainCache ("GET /i HTTP/1.1".data) [] [] =
      handle_get_request envW mainCache (effPath ("GET /i HTTP/1.1".data) [])
        (cstr ("GET /i HTTP/1.1".data)) := by
  refine ⟨?_, ?_, ?_⟩
  · exact (dispatch_by_method envW mainCache _ [] [] _ rfl).2.1 (by decide)
  · exact (dispatch_by_method envW mainCache _ [] [] _ rfl).2.2 (by decide) (by decide)
  · exact (dispatch_by_method envW mainCache _ [] [] ("NOTFOUND".data) rfl).1 (by decide)

/-- Claim C1: for a GET request whose extracted path token matches
/profile/<token> (the literal prefix /profile/ followed by a non-empty
token), the server serves the fixed file /profile.html under the document
root with status 200, and for a GET request with any other path token it
serves the fixed file /index.html with status 200; in both cases the
response is built only from the fixed file's contents, so no data from the
token flows into it. -/
theorem get_request_routing (env : Env) (cache : Cache) (buf ti pi dp di : List Char)
    (hp : env.fs ("./serverroot/profile.html".data) = some dp)
    (hi : env.fs ("./serverroot/index.html".data) = some di)
    (hGET : effMethod buf ti = "GET".data)
    (htok : (firstTwoTokens buf).2 ≠ []) :
    ((("/profile/".data).isPrefixOf (firstTwoTokens buf).2 ∧
        ((firstTwoTokens buf).2).drop 9 ≠ [] →
      dispatchRequest env cache buf ti pi =
        (Outcome.sent (send_response_bytes ("HTTP/1.1 200 OK".data) env.date
          (env.mime ("./serverroot/profile.html".data)) dp (Int.ofNat dp.length)), cache)) ∧
    (¬(("/profile/".data).isPrefixOf (firstTwoTokens buf).2 ∧
        ((firstTwoTokens buf).2).drop 9 ≠ []) →
      dispatchRequest env cache buf ti pi =
        (Outcome.sent (send_response_bytes ("HTTP/1.1 200 OK".data) env.date
          (env.mime ("./serverroot/index.html".data)) di (Int.ofNat di.length)), cache))) := by
  have hPathEq : effPath buf pi = (firstTwoTokens buf).2 := by
    unfold effPath
    rw [if_neg htok]
  have hiff := profileMatch_eq_true_iff (p := (firstTwoTokens buf).2)
    (fun c hc => (firstTwoTokens_snd_spec hc).1) (fun c hc => (firstTwoTokens_snd_spec hc).2)
  constructor
  · intro hpat
    unfold dispatchRequest
    rw [if_pos hGET]
    unfold handle_get_request
    rw [hPathEq, if_pos (hiff.mpr hpat)]
    unfold resp_file
    rw [resolvePath_profile, hp]
  · intro hpat
    unfold dispatchRequest
    rw [if_pos hGET]
    unfold handle_get_request
    rw [hPathEq, if_neg (fun hm => hpat (hiff.mp hm))]
    unfold resp_file
    rw [resolvePath_index, hi]

/-- Witness for C1: a concrete matching GET request gets profile.html and a
concrete non-matching one gets index.html. -/
theorem get_request_routing_witness :
    dispatchRequest envW mainCache ("GET /profile/alice HTTP/1.1".data) [] [] =
      (Outcome.sent (send_response_bytes ("HTTP/1.1 200 OK".data) envW.date
        (envW.mime ("./serverroot/profile.html".data)) ("PROFILE".data)
        (Int.ofNat ("PROFILE".data).length)), mainCache) ∧
    dispatchRequest envW mainCache ("GET /index.html HTTP/1.1".data) [] [] =
      (Outcome.sent (send_response_bytes ("HTTP/1.1 200 OK".data) envW.date
        (envW.mime ("./serverroot/index.html".data)) ("INDEX".data)
        (Int.ofNat ("INDEX".data).length)), mainCache) := by
  constructor
  · exact (get_request_routing envW mainCache _ [] [] _ ("INDEX".data) rfl rfl
      (by decide) (by decide)).1 (by decide)
  · exact (get_request_routing envW mainCache _ [] [] ("PROFILE".data) _ rfl rfl
      (by decide) (by decide)).2 (by decide)

/-- Claim C7 is refuted by the code: the %s conversions at server.c:180
carry no field width, so the extracted method is the whole token - here 11
characters, over the claimed 9 - and the store into the 10-byte type buffer
is 12 bytes (token plus NUL); likewise a long path token exceeds the claimed
106 characters and its store exceeds the 107-byte path buffer. -/
theorem sscanf_tokens_exceed_bounds :
    (firstTwoTokens ("OPTIONSABCD /x HTTP/1.1".data)).1.length = 11 ∧
    ¬((firstTwoTokens ("OPTIONSABCD /x HTTP/1.1".data)).1.length ≤ 9) ∧
    (scanWrite ((firstTwoTokens ("OPTIONSABCD /x HTTP/1.1".data)).1)).length = 12 ∧
    ¬((scanWrite ((firstTwoTokens ("OPTIONSABCD /x HTTP/1.1".data)).1)).length ≤ 10) ∧
    (firstTwoTokens ("GET ".data ++ List.replicate 120 'a')).2.length = 120 ∧
    ¬((firstTwoTokens ("GET ".data ++ List.replicate 120 'a')).2.length ≤ 106) ∧
    ¬((scanWrite ((firstTwoTokens ("GET ".data ++ List.replicate 120 'a')).2)).length ≤ 107) := by
  decide

/-- Counterexample to C4 as stated: a 3-byte body with an embedded NUL byte
is sent as only the single byte before the NUL (the bytes after the blank
line have length 1), while the Content-Length value rendered into the header
is the full 3. -/
theorem content_length_counterexample :
    ((splitAtBlank (send_response_bytes ("HTTP/1.1 200 OK".data) envW.date
        ("text/html".data) ('a' :: NUL :: 'b' :: []) 3)).map (fun p => p.2.length)) =
      some 1 ∧
    ("Content-Length: 3".data <:+:
      headerBytes ("HTTP/1.1 200 OK".data) envW.date ("text/html".data) 3) ∧
    ((splitAtBlank (send_response_bytes ("HTTP/1.1 200 OK".data) envW.date
        ("text/html".data) ('a' :: NUL :: 'b' :: []) 3)).map Prod.fst) =
      some (headerBytes ("HTTP/1.1 200 OK".data) envW.date ("text/html".data) 3) ∧
    (1 : Nat) ≠ 3 := by
  decide

/-- Claim C4 amended: when the body holds no embedded NUL byte, the caller
passes the body's exact byte length (as resp_404 and resp_file do), the
rendering fits the response buffer, and the rendered header has no stray
blank-line material, the bytes following the blank line of the sent buffer
are exactly the body, whose length is the numeric value rendered into the
Content-Length header.  For bodies with embedded NUL bytes the claim is
false (see the counterexample): the sent body is cut at the first NUL while
the header keeps the full length. -/
theorem content_length_matches_body (header date content_type body : List Char)
    (hb : ∀ c ∈ body, c ≠ NUL)
    (hfit : (headerBytes header date content_type (Int.ofNat body.length) ++
        '\n' :: '\n' :: body).length ≤ max_response_size - 1)
    (hblank : hasBlank (headerBytes header date content_type (Int.ofNat body.length) ++
        ['\n']) = false) :
    splitAtBlank (send_response_bytes header date content_type body (Int.ofNat body.length)) =
      some (headerBytes header date content_type (Int.ofNat body.length), body) ∧
    ("Content-Length: ".data ++ (Int.repr (Int.ofNat body.length)).data ++ ['\n']) <:+:
      headerBytes header date content_type (Int.ofNat body.length) := by
  have hcb : cstr body = body := cstr_eq_self hb
  have hsend : send_response_bytes header date content_type body (Int.ofNat body.length) =
      headerBytes header date content_type (Int.ofNat body.length) ++ '\n' :: '\n' :: body := by
    unfold send_response_bytes
    rw [hcb]
    exact List.take_of_length_le hfit
  constructor
  · rw [hsend]
    exact splitAtBlank_append _ _ hblank
  · refine ⟨cstr header ++ "\nDate: ".data ++ cstr date ++ "Connection: close\n".data,
      "Content-Type: ".data ++ cstr content_type, ?_⟩
    unfold headerBytes
    have e1 : ("Connection: close\nContent-Length: ".data) =
        "Connection: close\n".data ++ "Content-Length: ".data := by decide
    have e2 : ("\nContent-Type: ".data) = '\n' :: "Content-Type: ".data := by decide
    rw [e1, e2]
    simp [List.append_assoc]

/-- Witness for the amended C4 at a concrete NUL-free body. -/
theorem content_length_matches_body_witness :
    splitAtBlank (send_response_bytes ("HTTP/1.1 200 OK".data) envW.date ("text/html".data)
        ("hello".data) (Int.ofNat ("hello".data).length)) =
      some (headerBytes ("HTTP/1.1 200 OK".data) envW.date ("text/html".data)
        (Int.ofNat ("hello".data).length), "hello".data) ∧
    ("Content-Length: ".data ++ (Int.repr (Int.ofNat ("hello".data).length)).data ++ ['\n']) <:+:
      headerBytes ("HTTP/1.1 200 OK".data) envW.date ("text/html".data)
        (Int.ofNat ("hello".data).length) :=
  content_length_matches_body ("HTTP/1.1 200 OK".data) envW.date ("text/html".data)
    ("hello".data) (by decide) (by decide) (by decide)

/-- Counterexample to C5 as stated: with a body carrying an embedded NUL the
sent buffer is not the claimed layout ending in the full body - the body is
cut at the NUL by the %s conversion. -/
theorem response_layout_counterexample :
    send_response_bytes ("HTTP/1.1 200 OK".data) envW.date ("text/html".data)
        ('x' :: NUL :: 'y' :: []) 3 ≠
      ("HTTP/1.1 200 OK".data ++ "\nDate: ".data ++ envW.date ++
        "Connection: close\nContent-Length: ".data ++ (Int.repr 3).data ++
        "\nContent-Type: ".data ++ "text/html".data ++
        '\n' :: '\n' :: ('x' :: NUL :: 'y' :: [])) := by
  decide

/-- Claim C5 amended: every response built by send_response whose rendering
fits the 262143-byte buffer is a single buffer with exactly the layout
status line, Date, Connection: close, Content-Length, Content-Type, blank
line, body, in that order and separated by bare newlines, except that the
body appears truncated at its first NUL byte (the full body exactly when the
body is NUL-free, see the counterexample); no carriage return occurs
anywhere in the buffer unless one of the inputs carried one. -/
theorem response_layout (header date content_type body : List Char) (content_length : Int)
    (hh : ∀ c ∈ header, c ≠ NUL) (hd : ∀ c ∈ date, c ≠ NUL)
    (hc : ∀ c ∈ content_type, c ≠ NUL)
    (hfit : (headerBytes header date content_type content_length ++
        '\n' :: '\n' :: cstr body).length ≤ max_response_size - 1) :
    send_response_bytes header date content_type body content_length =
      header ++ "\nDate: ".data ++ date ++ "Connection: close\nContent-Length: ".data ++
        (Int.repr content_length).data ++ "\nContent-Type: ".data ++ content_type ++
        '\n' :: '\n' :: List.takeWhile (fun c => c ≠ NUL) body ∧
    ((∀ c ∈ header, c ≠ '\r') → (∀ c ∈ date, c ≠ '\r') → (∀ c ∈ content_type, c ≠ '\r') →
      (∀ c ∈ body, c ≠ '\r') →
      ∀ c ∈ send_response_bytes header date content_type body content_length, c ≠ '\r') := by
  have hbody : List.takeWhile (fun c => c ≠ NUL) body = cstr body := rfl
  constructor
  · rw [hbody]
    unfold send_response_bytes
    rw [List.take_of_length_le hfit]
    unfold headerBytes
    rw [cstr_eq_self hh, cstr_eq_self hd, cstr_eq_self hc]
  · intro r1 r2 r3 r4 c hcmem
    have hcmem2 : c ∈ headerBytes header date content_type content_length ++
        '\n' :: '\n' :: cstr body := List.take_subset _ _ hcmem
    unfold headerBytes at hcmem2
    rcases List.mem_append.mp hcmem2 with h | h
    · rcases List.mem_append.mp h with h | h
      · rcases List.mem_append.mp h with h | h
        · rcases List.mem_append.mp h with h | h
          · rcases List.mem_append.mp h with h | h
            · rcases List.mem_append.mp h with h | h
              · rcases List.mem_append.mp h with h | h
                · exact r1 c ((cstr_sublist header).mem h)
                · exact (by decide : ∀ x ∈ "\nDate: ".data, x ≠ '\r') c h
              · exact r2 c ((cstr_sublist date).mem h)
            · exact
                (by decide : ∀ x ∈ "Connection: close\nContent-Length: ".data, x ≠ '\r')
                  c h
          · exact (intRepr_clean content_length c h).2.1
        · exact (by decide : ∀ x ∈ "\nContent-Type: ".data, x ≠ '\r') c h
      · exact r3 c ((cstr_sublist content_type).mem h)
    · rcases List.mem_cons.mp h with rfl | h
      · decide
      · rcases List.mem_cons.mp h with rfl | h
        · decide
        · exact r4 c ((cstr_sublist body).mem h)

/-- Witness for the amended C5 at concrete arguments: the sent buffer equals
the layout with the body cut at its NUL, and contains no carriage return. -/
theorem response_layout_witness :
    send_response_bytes ("HTTP/1.1 200 OK".data) envW.date ("text/html".data)
        ('x' :: NUL :: 'y' :: []) 3 =
      ("HTTP/1.1 200 OK".data ++ "\nDate: ".data ++ envW.date ++
        "Connection: close\nContent-Length: ".data ++ (Int.repr 3).data ++
        "\nContent-Type: ".data ++ "text/html".data ++
        '\n' :: '\n' ::
          List.takeWhile (fun c => c ≠ NUL) ('x' :: NUL :: 'y' :: [])) ∧
    (∀ c ∈ send_response_bytes ("HTTP/1.1 200 OK".data) envW.date ("text/html".data)
        ('x' :: NUL :: 'y' :: []) 3, c ≠ '\r') := by
  have h := response_layout ("HTTP/1.1 200 OK".data) envW.date ("text/html".data)
    ('x' :: NUL :: 'y' :: []) 3 (by decide) (by decide) (by decide) (by decide)
  exact ⟨h.1, h.2 (by decide) (by decide) (by decide) (by decide)⟩
